import Mathlib

/-!
Verification development for the Ruua embedded-finance business logic
(`main.py`): loan offer decisions, payment processing against stored
offers, and additive fraud scoring, together with the in-memory stores
`offers_db`, `transactions_db` and `fraud_checks_db`.

Python floats are embedded as rationals, Python ints as integers, and
the three module-level dicts as insertion-ordered association lists with
dict semantics (overwrite in place, lookup returns the live binding).
Generated UUIDs and timestamps are passed in as explicit parameters.
-/

namespace Ruua

/-- Round a rational to the nearest integer, ties to even
(the semantics of Python `round` on an exact half). -/
def roundHalfEven (x : ℚ) : ℤ :=
  let f := ⌊x⌋
  let r := x - (f : ℚ)
  if r < 1/2 then f
  else if 1/2 < r then f + 1
  else if f % 2 = 0 then f else f + 1

/-- Embedding of Python `round(x, 2)`. -/
def round2 (x : ℚ) : ℚ := ((roundHalfEven (x * 100) : ℤ) : ℚ) / 100

/-- `OfferRequest` from `main.py`: request data for creating a loan offer. -/
structure OfferRequest where
  user_id : String
  order_amount : ℚ
  recent_payments : ℤ
  failed_payments_last_30_days : ℤ
  device_country : String
  billing_country : String
  employer_enrolled : Bool
  salary_monthly : Option ℚ
deriving DecidableEq

/-- `PayRequest` from `main.py`: request data for processing a payment. -/
structure PayRequest where
  offer_id : String
deriving DecidableEq

/-- `FraudRequest` from `main.py`: request data for fraud detection. -/
structure FraudRequest where
  user_id : String
  transaction_amount : ℚ
  device_country : String
  billing_country : String
  device_count : ℤ
  failed_payments_last_30_days : ℤ
deriving DecidableEq

/-- The offer record stored in `offers_db` (the `offer_data` dict). -/
structure Offer where
  offer_id : String
  status : String
  amount_offered : ℚ
  term_months : ℤ
  interest_rate : ℚ
  monthly_payment : ℚ
  reason : String
deriving DecidableEq

/-- The transaction record stored in `transactions_db`. -/
structure Transaction where
  transaction_id : String
  offer_id : String
  amount : ℚ
  status : String
  created_at : String
deriving DecidableEq

/-- The fraud-check record stored in `fraud_checks_db`. -/
structure FraudCheck where
  fraud_check_id : String
  status : String
  fraud_score : ℤ
  flags : List String
  action : String
  created_at : String
deriving DecidableEq

/-- The result dict returned by `process_payment`. -/
structure PayResult where
  success : Bool
  transaction_id : Option String
  message : String
deriving DecidableEq

/-- Lookup in a Python dict modelled as an association list:
the live binding for a key is the unique (hence first) one. -/
def dictLookup {β : Type} (k : String) : List (String × β) → Option β
  | [] => none
  | (k2, v) :: rest => if k2 = k then some v else dictLookup k rest

/-- Assignment `d[k] = v` on a Python dict: overwrite in place if the key
exists (keeping insertion order), otherwise append at the end. -/
def dictInsert {β : Type} (k : String) (v : β) : List (String × β) → List (String × β)
  | [] => [(k, v)]
  | (k2, v2) :: rest =>
      if k2 = k then (k, v) :: rest else (k2, v2) :: dictInsert k v rest

/-- The three module-level stores of `main.py`. -/
structure AppState where
  offers_db : List (String × Offer)
  transactions_db : List (String × Transaction)
  fraud_checks_db : List (String × FraudCheck)
deriving DecidableEq

/-- The empty initial state of the module-level stores. -/
def initialState : AppState := ⟨[], [], []⟩

/-- The pure decision part of `create_offer` (`main.py` lines 71-105):
the business rules, evaluated in order, first match wins. -/
def offerDecision (req : OfferRequest) (offer_id : String) : Offer :=
  if req.order_amount ≤ 200 then
    { offer_id := offer_id
      status := "approved"
      amount_offered := req.order_amount
      term_months := 1
      interest_rate := 3
      monthly_payment := round2 (req.order_amount * (103/100))
      reason := "Small amount instant approval" }
  else if req.order_amount ≤ 1000 ∧ 3 ≤ req.recent_payments then
    { offer_id := offer_id
      status := "approved_installments"
      amount_offered := req.order_amount
      term_months := 2
      interest_rate := 4
      monthly_payment := round2 (req.order_amount * ((1 + 4/100/12) ^ 2) / 2)
      reason := "Good payment history - installment approval" }
  else
    { offer_id := offer_id
      status := "manual_review"
      amount_offered := 0
      term_months := 0
      interest_rate := 0
      monthly_payment := 0
      reason := "Requires manual review due to amount or insufficient payment history" }

/-- `create_offer` (`main.py` lines 57-110): compute the decision record
for a freshly generated `offer_id` and store it in `offers_db`. -/
def create_offer (req : OfferRequest) (offer_id : String) (s : AppState) :
    Offer × AppState :=
  let offer_data := offerDecision req offer_id
  (offer_data, { s with offers_db := dictInsert offer_id offer_data s.offers_db })

/-- `process_payment` (`main.py` lines 112-151): look up the offer, fail if
absent or not approved, otherwise record a completed transaction under a
freshly generated `transaction_id` with the current timestamp `now`. -/
def process_payment (pay : PayRequest) (transaction_id now : String) (s : AppState) :
    PayResult × AppState :=
  match dictLookup pay.offer_id s.offers_db with
  | none =>
      (⟨false, none, "Offer not found"⟩, s)
  | some offer =>
      if offer.status ∉ ["approved", "approved_installments"] then
        (⟨false, none, "Offer is not approved for payment"⟩, s)
      else
        let transaction_data : Transaction :=
          { transaction_id := transaction_id
            offer_id := pay.offer_id
            amount := offer.amount_offered
            status := "completed"
            created_at := now }
        (⟨true, some transaction_id, "Payment processed successfully"⟩,
         { s with transactions_db :=
             dictInsert transaction_id transaction_data s.transactions_db })

/-- The scoring loop of `check_fraud` (`main.py` lines 158-179): starting
from score 0 and no flags, each condition adds its weight and appends its
flag string, in order. -/
def fraudScoreFlags (req : FraudRequest) : ℤ × List String :=
  let sf : ℤ × List String := (0, [])
  let sf := if req.device_country ≠ req.billing_country then
      (sf.1 + 30, sf.2 ++ ["Device and billing country mismatch"]) else sf
  let sf := if 3 < req.failed_payments_last_30_days then
      (sf.1 + 40, sf.2 ++ ["High number of failed payments in last 30 days"]) else sf
  let sf := if 5000 < req.transaction_amount then
      (sf.1 + 20, sf.2 ++ ["Unusual high transaction amount"]) else sf
  let sf := if 3 < req.device_count then
      (sf.1 + 25, sf.2 ++ ["Multiple devices detected"]) else sf
  sf

/-- Status and action thresholds of `check_fraud` (`main.py` lines 182-190). -/
def fraudStatusAction (fraud_score : ℤ) : String × String :=
  if 50 ≤ fraud_score then ("flagged", "block")
  else if 30 ≤ fraud_score then ("suspicious", "review")
  else ("approved", "allow")

/-- The fraud record built by `check_fraud` for a freshly generated
`fraud_check_id` and current timestamp `now`. -/
def fraudDecision (req : FraudRequest) (fraud_check_id now : String) : FraudCheck :=
  let sf := fraudScoreFlags req
  let sa := fraudStatusAction sf.1
  { fraud_check_id := fraud_check_id
    status := sa.1
    fraud_score := sf.1
    flags := sf.2
    action := sa.2
    created_at := now }

/-- `check_fraud` (`main.py` lines 153-206): compute the fraud record and
store it in `fraud_checks_db`. -/
def check_fraud (req : FraudRequest) (fraud_check_id now : String) (s : AppState) :
    FraudCheck × AppState :=
  let fraud_data := fraudDecision req fraud_check_id now
  (fraud_data,
   { s with fraud_checks_db := dictInsert fraud_check_id fraud_data s.fraud_checks_db })

/-- `get_all_transactions` (`main.py` lines 208-210): all stored
transactions in insertion order. -/
def get_all_transactions (s : AppState) : List Transaction :=
  s.transactions_db.map Prod.snd

/-- `get_all_offers` (`main.py` lines 212-214): all stored offers in
insertion order. -/
def get_all_offers (s : AppState) : List Offer :=
  s.offers_db.map Prod.snd

/-- `get_all_fraud_checks` (`main.py` lines 216-218): all stored fraud
checks in insertion order. -/
def get_all_fraud_checks (s : AppState) : List FraudCheck :=
  s.fraud_checks_db.map Prod.snd

/-- The two offer statuses that allow payment. -/
def ApprovedStatus (st : String) : Prop :=
  st = "approved" ∨ st = "approved_installments"

instance (st : String) : Decidable (ApprovedStatus st) := by
  unfold ApprovedStatus; infer_instance

/-- State invariant: every transaction in the transaction store references
an offer present in the offer store whose status is one of the two
approved statuses. -/
def Invariant (s : AppState) : Prop :=
  ∀ p ∈ s.transactions_db,
    ∃ o, dictLookup (Transaction.offer_id p.2) s.offers_db = some o ∧
      ApprovedStatus o.status

theorem dictLookup_dictInsert {β : Type} (k ka : String) (v : β)
    (l : List (String × β)) :
    dictLookup ka (dictInsert k v l) =
      if k = ka then some v else dictLookup ka l := by
  induction l with
  | nil => simp [dictLookup, dictInsert]
  | cons hd tl ih =>
      obtain ⟨k2, v2⟩ := hd
      by_cases h2 : k2 = k
      · subst h2
        by_cases hk : k2 = ka <;> simp [dictLookup, dictInsert, hk]
      · by_cases hk : k2 = ka
        · subst hk
          simp [dictLookup, dictInsert, h2]
          rw [if_neg fun h => h2 h.symm]
        · simp [dictLookup, dictInsert, h2, hk, ih]

theorem mem_dictInsert {β : Type} {p : String × β} {k : String} {v : β}
    {l : List (String × β)} (h : p ∈ dictInsert k v l) :
    p = (k, v) ∨ p ∈ l := by
  induction l with
  | nil => simpa [dictInsert] using h
  | cons hd tl ih =>
      obtain ⟨k2, v2⟩ := hd
      by_cases h2 : k2 = k
      · subst h2
        simp [dictInsert] at h
        rcases h with h | h
        · exact Or.inl h
        · exact Or.inr (List.mem_cons_of_mem _ h)
      · simp [dictInsert, h2] at h
        rcases h with h | h
        · exact Or.inr (by simp [h])
        · rcases ih h with h3 | h3
          · exact Or.inl h3
          · exact Or.inr (List.mem_cons_of_mem _ h3)

/-- C1: every offer request with requested amount at most 200 is approved
outright: status `approved`, offered amount = requested amount, term one
month, rate 3 percent, monthly payment `round(amount * 1.03, 2)`. -/
theorem create_offer_small_amount_approved (req : OfferRequest)
    (oid : String) (s : AppState) (h : req.order_amount ≤ 200) :
    (create_offer req oid s).1.status = "approved" ∧
    (create_offer req oid s).1.amount_offered = req.order_amount ∧
    (create_offer req oid s).1.term_months = 1 ∧
    (create_offer req oid s).1.interest_rate = 3 ∧
    (create_offer req oid s).1.monthly_payment =
      round2 (req.order_amount * (103/100)) := by
  simp [create_offer, offerDecision, h]

theorem create_offer_small_amount_approved_witness :
    (150 : ℚ) ≤ 200 ∧
    ((create_offer ⟨"user001", 150, 1, 0, "US", "US", false, some 2000⟩
        "offer1" initialState).1.status = "approved" ∧
     (create_offer ⟨"user001", 150, 1, 0, "US", "US", false, some 2000⟩
        "offer1" initialState).1.amount_offered =
       OfferRequest.order_amount ⟨"user001", 150, 1, 0, "US", "US", false, some 2000⟩ ∧
     (create_offer ⟨"user001", 150, 1, 0, "US", "US", false, some 2000⟩
        "offer1" initialState).1.term_months = 1 ∧
     (create_offer ⟨"user001", 150, 1, 0, "US", "US", false, some 2000⟩
        "offer1" initialState).1.interest_rate = 3 ∧
     (create_offer ⟨"user001", 150, 1, 0, "US", "US", false, some 2000⟩
        "offer1" initialState).1.monthly_payment =
       round2 (OfferRequest.order_amount
         ⟨"user001", 150, 1, 0, "US", "US", false, some 2000⟩ * (103/100))) :=
  ⟨by norm_num,
   create_offer_small_amount_approved _ "offer1" initialState (by norm_num)⟩

/-- C2: rules are evaluated in order with first match winning: when the
amount is over 200 but at most 1000 and there are at least 3 recent
successful payments, the offer is `approved_installments` with term 2,
rate 4 percent, payment `round(amount * (1 + 0.04/12)^2 / 2, 2)`; and any
request with amount at most 200 still gets rule 1's `approved` status,
regardless of its recent-payment count. -/
theorem create_offer_installments_rule_order (req req2 : OfferRequest)
    (oid oid2 : String) (s s2 : AppState)
    (h1 : ¬ req.order_amount ≤ 200) (h2 : req.order_amount ≤ 1000)
    (h3 : 3 ≤ req.recent_payments) (h4 : req2.order_amount ≤ 200) :
    (create_offer req oid s).1.status = "approved_installments" ∧
    (create_offer req oid s).1.amount_offered = req.order_amount ∧
    (create_offer req oid s).1.term_months = 2 ∧
    (create_offer req oid s).1.interest_rate = 4 ∧
    (create_offer req oid s).1.monthly_payment =
      round2 (req.order_amount * ((1 + 4/100/12) ^ 2) / 2) ∧
    (create_offer req2 oid2 s2).1.status = "approved" := by
  simp [create_offer, offerDecision, h1, h2, h3, h4]

theorem create_offer_installments_rule_order_witness :
    ¬ (800 : ℚ) ≤ 200 ∧ (800 : ℚ) ≤ 1000 ∧ (3 : ℤ) ≤ 5 ∧ (150 : ℚ) ≤ 200 ∧
    ((create_offer ⟨"user002", 800, 5, 0, "US", "US", true, some 4000⟩
        "offer2" initialState).1.status = "approved_installments" ∧
     (create_offer ⟨"user002", 800, 5, 0, "US", "US", true, some 4000⟩
        "offer2" initialState).1.amount_offered =
       OfferRequest.order_amount ⟨"user002", 800, 5, 0, "US", "US", true, some 4000⟩ ∧
     (create_offer ⟨"user002", 800, 5, 0, "US", "US", true, some 4000⟩
        "offer2" initialState).1.term_months = 2 ∧
     (create_offer ⟨"user002", 800, 5, 0, "US", "US", true, some 4000⟩
        "offer2" initialState).1.interest_rate = 4 ∧
     (create_offer ⟨"user002", 800, 5, 0, "US", "US", true, some 4000⟩
        "offer2" initialState).1.monthly_payment =
       round2 (OfferRequest.order_amount
         ⟨"user002", 800, 5, 0, "US", "US", true, some 4000⟩ * ((1 + 4/100/12) ^ 2) / 2) ∧
     (create_offer ⟨"user009", 150, 9, 0, "US", "US", false, none⟩
        "offer9" initialState).1.status = "approved") :=
  ⟨by norm_num, by norm_num, by norm_num, by norm_num,
   create_offer_installments_rule_order _ _ "offer2" "offer9"
     initialState initialState (by norm_num) (by norm_num) (by norm_num) (by norm_num)⟩

/-- C3: a request matching neither rule 1 nor rule 2 gets `manual_review`
with offered amount 0, term 0, rate 0, payment 0 and the fixed reason
string. -/
theorem create_offer_manual_review (req : OfferRequest) (oid : String)
    (s : AppState) (h1 : ¬ req.order_amount ≤ 200)
    (h2 : ¬ (req.order_amount ≤ 1000 ∧ 3 ≤ req.recent_payments)) :
    (create_offer req oid s).1.status = "manual_review" ∧
    (create_offer req oid s).1.amount_offered = 0 ∧
    (create_offer req oid s).1.term_months = 0 ∧
    (create_offer req oid s).1.interest_rate = 0 ∧
    (create_offer req oid s).1.monthly_payment = 0 ∧
    (create_offer req oid s).1.reason =
      "Requires manual review due to amount or insufficient payment history" := by
  simp [create_offer, offerDecision, h1, h2]

theorem create_offer_manual_review_witness :
    ¬ (1500 : ℚ) ≤ 200 ∧ ¬ ((1500 : ℚ) ≤ 1000 ∧ (3 : ℤ) ≤ 1) ∧
    ((create_offer ⟨"user003", 1500, 1, 2, "US", "US", false, some 3000⟩
        "offer3" initialState).1.status = "manual_review" ∧
     (create_offer ⟨"user003", 1500, 1, 2, "US", "US", false, some 3000⟩
        "offer3" initialState).1.amount_offered = 0 ∧
     (create_offer ⟨"user003", 1500, 1, 2, "US", "US", false, some 3000⟩
        "offer3" initialState).1.term_months = 0 ∧
     (create_offer ⟨"user003", 1500, 1, 2, "US", "US", false, some 3000⟩
        "offer3" initialState).1.interest_rate = 0 ∧
     (create_offer ⟨"user003", 1500, 1, 2, "US", "US", false, some 3000⟩
        "offer3" initialState).1.monthly_payment = 0 ∧
     (create_offer ⟨"user003", 1500, 1, 2, "US", "US", false, some 3000⟩
        "offer3" initialState).1.reason =
       "Requires manual review due to amount or insufficient payment history") :=
  ⟨by norm_num, by norm_num,
   create_offer_manual_review _ "offer3" initialState (by norm_num) (by norm_num)⟩

/-- C4: `process_payment` fails with "Offer not found" exactly when the
offer id is absent from the offer store, fails with "Offer is not approved
for payment" exactly when the offer exists with a status other than the
two approved ones, and on every failure leaves all stores unchanged. -/
theorem process_payment_failure_characterisation (pay : PayRequest)
    (tid now : String) (s : AppState) :
    ((process_payment pay tid now s).1 = ⟨false, none, "Offer not found"⟩ ↔
      dictLookup pay.offer_id s.offers_db = none) ∧
    ((process_payment pay tid now s).1 =
        ⟨false, none, "Offer is not approved for payment"⟩ ↔
      ∃ o, dictLookup pay.offer_id s.offers_db = some o ∧
        o.status ∉ ["approved", "approved_installments"]) ∧
    ((process_payment pay tid now s).1.success = false →
      (process_payment pay tid now s).2 = s) := by
  rcases h : dictLookup pay.offer_id s.offers_db with _ | o
  · simp [process_payment, h]
  · by_cases hst : o.status ∈ ["approved", "approved_installments"]
    · have hst2 := hst
      simp only [List.mem_cons, List.not_mem_nil, or_false] at hst2
      rcases hst2 with h1 | h1 <;> simp [process_payment, h, hst, h1]
    · have hst2 := hst
      simp only [List.mem_cons, List.not_mem_nil, or_false, not_or] at hst2
      simp [process_payment, h, hst, hst2]

/-- C5: payment against a stored offer with status `manual_review` fails;
payment against a stored offer with an approved status succeeds, returning
success and the new transaction id, and records exactly one new completed
transaction whose amount is the offer's offered amount, touching no other
store. -/
theorem process_payment_approved_succeeds (pay : PayRequest)
    (tid now : String) (s : AppState) (o : Offer)
    (hl : dictLookup pay.offer_id s.offers_db = some o) :
    (o.status = "manual_review" →
      (process_payment pay tid now s).1.success = false) ∧
    (ApprovedStatus o.status →
      (process_payment pay tid now s).1 =
        ⟨true, some tid, "Payment processed successfully"⟩ ∧
      (process_payment pay tid now s).2.transactions_db =
        dictInsert tid ⟨tid, pay.offer_id, o.amount_offered, "completed", now⟩
          s.transactions_db ∧
      (process_payment pay tid now s).2.offers_db = s.offers_db ∧
      (process_payment pay tid now s).2.fraud_checks_db = s.fraud_checks_db) := by
  constructor
  · intro hm
    simp [process_payment, hl, hm]
  · intro ha
    rcases ha with h | h <;> simp [process_payment, hl, h]

theorem process_payment_approved_succeeds_witness :
    dictLookup "offer1"
      (AppState.offers_db
        ⟨[("offer1", ⟨"offer1", "approved", 150, 1, 3, 309/2,
            "Small amount instant approval"⟩)], [], []⟩) =
      some ⟨"offer1", "approved", 150, 1, 3, 309/2,
        "Small amount instant approval"⟩ ∧
    ((Offer.status ⟨"offer1", "approved", 150, 1, 3, 309/2,
        "Small amount instant approval"⟩ = "manual_review" →
      (process_payment ⟨"offer1"⟩ "tx1" "t0"
        ⟨[("offer1", ⟨"offer1", "approved", 150, 1, 3, 309/2,
            "Small amount instant approval"⟩)], [], []⟩).1.success = false) ∧
     (ApprovedStatus (Offer.status ⟨"offer1", "approved", 150, 1, 3, 309/2,
         "Small amount instant approval"⟩) →
      (process_payment ⟨"offer1"⟩ "tx1" "t0"
        ⟨[("offer1", ⟨"offer1", "approved", 150, 1, 3, 309/2,
            "Small amount instant approval"⟩)], [], []⟩).1 =
        ⟨true, some "tx1", "Payment processed successfully"⟩ ∧
      (process_payment ⟨"offer1"⟩ "tx1" "t0"
        ⟨[("offer1", ⟨"offer1", "approved", 150, 1, 3, 309/2,
            "Small amount instant approval"⟩)], [], []⟩).2.transactions_db =
        dictInsert "tx1" ⟨"tx1", PayRequest.offer_id ⟨"offer1"⟩,
            Offer.amount_offered ⟨"offer1", "approved", 150, 1, 3, 309/2,
              "Small amount instant approval"⟩, "completed", "t0"⟩ [] ∧
      (process_payment ⟨"offer1"⟩ "tx1" "t0"
        ⟨[("offer1", ⟨"offer1", "approved", 150, 1, 3, 309/2,
            "Small amount instant approval"⟩)], [], []⟩).2.offers_db =
        [("offer1", ⟨"offer1", "approved", 150, 1, 3, 309/2,
            "Small amount instant approval"⟩)] ∧
      (process_payment ⟨"offer1"⟩ "tx1" "t0"
        ⟨[("offer1", ⟨"offer1", "approved", 150, 1, 3, 309/2,
            "Small amount instant approval"⟩)], [], []⟩).2.fraud_checks_db = [])) :=
  ⟨by simp [dictLookup],
   process_payment_approved_succeeds ⟨"offer1"⟩ "tx1" "t0"
     ⟨[("offer1", ⟨"offer1", "approved", 150, 1, 3, 309/2,
         "Small amount instant approval"⟩)], [], []⟩
     ⟨"offer1", "approved", 150, 1, 3, 309/2, "Small amount instant approval"⟩
     (by simp [dictLookup])⟩

/-- C6: the fraud score is the sum of exactly the weights of the firing
conditions (mismatch 30, failed payments over 3 adds 40, amount over 5000
adds 20, device count over 3 adds 25), the flag list is the concatenation
of the firing flags in evaluation order, and status and action follow the
50 and 30 thresholds on the resulting score. -/
theorem check_fraud_additive_score (req : FraudRequest) (fid now : String)
    (s : AppState) :
    (check_fraud req fid now s).1.fraud_score =
      (if req.device_country ≠ req.billing_country then 30 else 0) +
      (if 3 < req.failed_payments_last_30_days then 40 else 0) +
      (if 5000 < req.transaction_amount then 20 else 0) +
      (if 3 < req.device_count then 25 else 0) ∧
    (check_fraud req fid now s).1.flags =
      (if req.device_country ≠ req.billing_country then
        ["Device and billing country mismatch"] else []) ++
      (if 3 < req.failed_payments_last_30_days then
        ["High number of failed payments in last 30 days"] else []) ++
      (if 5000 < req.transaction_amount then
        ["Unusual high transaction amount"] else []) ++
      (if 3 < req.device_count then
        ["Multiple devices detected"] else []) ∧
    (check_fraud req fid now s).1.status =
      (if 50 ≤ (check_fraud req fid now s).1.fraud_score then "flagged"
       else if 30 ≤ (check_fraud req fid now s).1.fraud_score then "suspicious"
       else "approved") ∧
    (check_fraud req fid now s).1.action =
      (if 50 ≤ (check_fraud req fid now s).1.fraud_score then "block"
       else if 30 ≤ (check_fraud req fid now s).1.fraud_score then "review"
       else "allow") := by
  simp only [check_fraud, fraudDecision, fraudScoreFlags, fraudStatusAction]
  split_ifs <;> simp_all

/-- C7 evidence: the claim that the returned fraud score always lies in
0..100 fails on the code: when all four conditions fire the score is
30 + 40 + 20 + 25 = 115, exceeding the bound 100 that the repository's
own response schema (`FraudResponse`, `fraud_score` between 0 and 100)
declares. -/
theorem check_fraud_score_exceeds_100 :
    (check_fraud ⟨"user007", 6000, "US", "CA", 5, 5⟩ "fraud1" "t0"
        initialState).1.fraud_score = 115 ∧
    ¬ (check_fraud ⟨"user007", 6000, "US", "CA", 5, 5⟩ "fraud1" "t0"
        initialState).1.fraud_score ≤ 100 := by
  constructor
  · simp [check_fraud, fraudDecision, fraudScoreFlags]
    decide
  · simp [check_fraud, fraudDecision, fraudScoreFlags]
    decide

/-- C8 counterexample: at the claimed input (device US, billing CA,
5 devices, 5 failed payments, amount 1000) the high-amount flag does not
fire, since 1000 is not greater than 5000, so the flag list has only
three entries and not all four flags are present. -/
theorem check_fraud_example_lacks_amount_flag :
    "Unusual high transaction amount" ∉
      (check_fraud ⟨"user006", 1000, "US", "CA", 5, 5⟩ "fraud2" "t0"
        initialState).1.flags ∧
    (check_fraud ⟨"user006", 1000, "US", "CA", 5, 5⟩ "fraud2" "t0"
        initialState).1.flags.length = 3 := by
  constructor
  · simp [check_fraud, fraudDecision, fraudScoreFlags]
    decide
  · simp [check_fraud, fraudDecision, fraudScoreFlags]
    decide

/-- C8 amended: at that input the score is 95, hence at least 50, the
status is `flagged` with action `block`, and the flag list consists of
exactly the three firing flags (country mismatch, failed payments,
multiple devices) in evaluation order. -/
theorem check_fraud_example_flagged_three_flags :
    (check_fraud ⟨"user006", 1000, "US", "CA", 5, 5⟩ "fraud2" "t0"
        initialState).1.fraud_score = 95 ∧
    50 ≤ (check_fraud ⟨"user006", 1000, "US", "CA", 5, 5⟩ "fraud2" "t0"
        initialState).1.fraud_score ∧
    (check_fraud ⟨"user006", 1000, "US", "CA", 5, 5⟩ "fraud2" "t0"
        initialState).1.status = "flagged" ∧
    (check_fraud ⟨"user006", 1000, "US", "CA", 5, 5⟩ "fraud2" "t0"
        initialState).1.action = "block" ∧
    (check_fraud ⟨"user006", 1000, "US", "CA", 5, 5⟩ "fraud2" "t0"
        initialState).1.flags =
      ["Device and billing country mismatch",
       "High number of failed payments in last 30 days",
       "Multiple devices detected"] := by
  refine ⟨?_, ?_, ?_, ?_, ?_⟩ <;>
    · simp [check_fraud, fraudDecision, fraudScoreFlags, fraudStatusAction]
      decide

/-- C9: assuming the freshly generated offer id is new (as a UUID is),
each of the three mutating operations preserves the store invariant that
every stored transaction references a stored offer with an approved
status; payment and fraud checking leave the offer store untouched, and
offer creation leaves every other offer binding unchanged (offers are
never modified after creation). The listing functions read the state
without returning a new one, so they preserve it trivially. -/
theorem operations_preserve_invariant (oreq : OfferRequest)
    (pay : PayRequest) (freq : FraudRequest)
    (oid tid fid now1 now2 : String) (s : AppState)
    (hInv : Invariant s) (hfresh : dictLookup oid s.offers_db = none) :
    Invariant (create_offer oreq oid s).2 ∧
    Invariant (process_payment pay tid now1 s).2 ∧
    Invariant (check_fraud freq fid now2 s).2 ∧
    (process_payment pay tid now1 s).2.offers_db = s.offers_db ∧
    (check_fraud freq fid now2 s).2.offers_db = s.offers_db ∧
    (∀ k, k ≠ oid →
      dictLookup k (create_offer oreq oid s).2.offers_db =
        dictLookup k s.offers_db) := by
  refine ⟨?_, ?_, ?_, ?_, ?_, ?_⟩
  · intro p hp
    simp only [create_offer] at hp ⊢
    obtain ⟨o, ho, happr⟩ := hInv p hp
    refine ⟨o, ?_, happr⟩
    rw [dictLookup_dictInsert]
    rcases eq_or_ne oid p.2.offer_id with he | he
    · rw [← he] at ho
      rw [hfresh] at ho
      exact absurd ho (by simp)
    · rw [if_neg he]
      exact ho
  · rcases h : dictLookup pay.offer_id s.offers_db with _ | o
    · simpa [process_payment, h] using hInv
    · by_cases hst : o.status ∈ ["approved", "approved_installments"]
      · intro p hp
        have hmem : ¬ o.status ∉ ["approved", "approved_installments"] :=
          not_not_intro hst
        simp only [process_payment, h, if_neg hmem] at hp ⊢
        rcases mem_dictInsert hp with hp2 | hp2
        · subst hp2
          refine ⟨o, h, ?_⟩
          simpa [ApprovedStatus] using hst
        · exact hInv p hp2
      · simpa [process_payment, h, hst] using hInv
  · intro p hp
    simp only [check_fraud] at hp ⊢
    exact hInv p hp
  · rcases h : dictLookup pay.offer_id s.offers_db with _ | o
    · simp [process_payment, h]
    · by_cases hst : o.status ∈ ["approved", "approved_installments"] <;>
        simp [process_payment, h, hst]
  · simp [check_fraud]
  · intro k hk
    simp only [create_offer]
    rw [dictLookup_dictInsert, if_neg fun h => hk h.symm]

theorem operations_preserve_invariant_witness :
    Invariant initialState ∧
    dictLookup "offer1" (AppState.offers_db initialState) = none ∧
    (Invariant (create_offer ⟨"user001", 150, 1, 0, "US", "US", false,
        some 2000⟩ "offer1" initialState).2 ∧
     Invariant (process_payment ⟨"missing"⟩ "tx1" "t0" initialState).2 ∧
     Invariant (check_fraud ⟨"user001", 100, "US", "US", 1, 0⟩ "fraud3" "t0"
        initialState).2 ∧
     (process_payment ⟨"missing"⟩ "tx1" "t0" initialState).2.offers_db =
       AppState.offers_db initialState ∧
     (check_fraud ⟨"user001", 100, "US", "US", 1, 0⟩ "fraud3" "t0"
        initialState).2.offers_db = AppState.offers_db initialState ∧
     (∀ k, k ≠ "offer1" →
       dictLookup k (create_offer ⟨"user001", 150, 1, 0, "US", "US", false,
          some 2000⟩ "offer1" initialState).2.offers_db =
         dictLookup k (AppState.offers_db initialState))) :=
  ⟨fun p hp => absurd hp (List.not_mem_nil p), rfl,
   operations_preserve_invariant _ ⟨"missing"⟩ _ "offer1" "tx1" "fraud3"
     "t0" "t0" initialState
     (fun p hp => absurd hp (List.not_mem_nil p)) rfl⟩

/-- C10: the decision fields of `check_fraud` and `create_offer` are
functions of the request alone: two calls with the same request agree on
every field other than the generated identifier and timestamp, whatever
the identifiers, timestamps and store contents of the two calls are. -/
theorem decisions_depend_only_on_request (oreq : OfferRequest)
    (freq : FraudRequest) (oid1 oid2 fid1 fid2 now1 now2 : String)
    (s1 s2 : AppState) :
    ((check_fraud freq fid1 now1 s1).1.fraud_score =
       (check_fraud freq fid2 now2 s2).1.fraud_score ∧
     (check_fraud freq fid1 now1 s1).1.status =
       (check_fraud freq fid2 now2 s2).1.status ∧
     (check_fraud freq fid1 now1 s1).1.flags =
       (check_fraud freq fid2 now2 s2).1.flags ∧
     (check_fraud freq fid1 now1 s1).1.action =
       (check_fraud freq fid2 now2 s2).1.action) ∧
    ((create_offer oreq oid1 s1).1.status =
       (create_offer oreq oid2 s2).1.status ∧
     (create_offer oreq oid1 s1).1.amount_offered =
       (create_offer oreq oid2 s2).1.amount_offered ∧
     (create_offer oreq oid1 s1).1.term_months =
       (create_offer oreq oid2 s2).1.term_months ∧
     (create_offer oreq oid1 s1).1.interest_rate =
       (create_offer oreq oid2 s2).1.interest_rate ∧
     (create_offer oreq oid1 s1).1.monthly_payment =
       (create_offer oreq oid2 s2).1.monthly_payment ∧
     (create_offer oreq oid1 s1).1.reason =
       (create_offer oreq oid2 s2).1.reason) := by
  refine ⟨⟨rfl, rfl, rfl, rfl⟩, ?_⟩
  simp only [create_offer, offerDecision]
  split_ifs <;> simp

end Ruua
